import Mathlib

/-!
Shallow embedding of the resilience / fan-out core of the
Streetwear_Crosslister repository, together with theorems checking the
natural-language specification against it.

Embedded source files:
  - src/utils/retry.py      (RetryConfig, retry_on_failure, calculate_backoff,
                             CircuitBreaker)
  - src/utils/oauth_manager.py (OAuthTokenManager token state and refresh)
  - src/models/listing_data.py (ListingData.validate)
  - src/services/cross_listing_service.py (create/update/delete cross listing)

Machine floats of the source are modelled as rationals; wall-clock time is an
explicit rational parameter; the nondeterministic jitter sample and the
per-platform network behaviour are explicit function parameters.
-/

/-! ## Python exception taxonomy used by retry.py

The retry configuration stores a list of exception classes and the wrapper
tests membership with isinstance.  We model the concrete exception classes
that can occur together with the subclass relation of the requests library:
ConnectionError, Timeout, HTTPError and TooManyRedirects are all subclasses
of RequestException; ValueError and KeyError are unrelated to it. -/

inductive PyExc where
  | connectionError
  | timeout
  | httpError
  | tooManyRedirects
  | requestException
  | valueError
  | keyError
deriving DecidableEq, Repr

/-- Membership of an exception in the requests exception family, i.e. the
classes that are subclasses of requests.exceptions.RequestException. -/
def PyExc.isRequests : PyExc → Bool
  | .connectionError => true
  | .timeout => true
  | .httpError => true
  | .tooManyRedirects => true
  | .requestException => true
  | .valueError => false
  | .keyError => false

/-- isinstance(e, c) for the modelled classes: a class is an instance of
itself, and every requests-family class is an instance of RequestException. -/
def PyExc.isInstance (e c : PyExc) : Bool :=
  e = c || (c = .requestException && e.isRequests)

/-! ## RetryConfig (src/utils/retry.py lines 11-30) -/

structure RetryConfig where
  max_retries : Nat := 3
  backoff_factor : ℚ := 2
  retry_on_status : List Nat := [429, 500, 502, 503, 504]
  retry_on_exceptions : List PyExc :=
    [.connectionError, .timeout, .requestException]
  max_backoff : ℚ := 60
  jitter : Bool := true
deriving Repr

/-! ## calculate_backoff (src/utils/retry.py lines 157-169)

random.uniform(-jitter_range, jitter_range) is modelled by the explicit
sample j; the caller obligation |j| <= jitter_range becomes a hypothesis. -/

def calculate_backoff (attempt : Nat) (config : RetryConfig) (j : ℚ) : ℚ :=
  let backoff := config.backoff_factor ^ attempt
  let backoff := min backoff config.max_backoff
  let backoff := if config.jitter then backoff + j else backoff
  max 0 backoff

/-! ## retry_on_failure (src/utils/retry.py lines 33-92)

One call of the wrapped function either returns a plain value, returns an
HTTP Response carrying a status code, or raises an exception.  The wrapped
function is modelled as a map from the 0-based attempt index to its result
on that attempt. -/

inductive CallRes where
  | value (v : Nat)
  | response (status : Nat)
  | exc (e : PyExc)
deriving DecidableEq, Repr

/-- Whether one call result triggers the retry branch of the wrapper:
a Response whose status is in retry_on_status, or an exception that is an
instance of one of the classes in retry_on_exceptions. -/
def retryableRes (config : RetryConfig) : CallRes → Bool
  | .value _ => false
  | .response s => config.retry_on_status.contains s
  | .exc e => config.retry_on_exceptions.any (fun c => e.isInstance c)

/-- How the wrapper terminates: a normal return (line 67 of retry.py, or
line 67 via a Response whose status is not retryable), termination at the
last attempt while the condition is still retryable (line 61 for responses,
the final raise of line 85 for exceptions), or an immediate raise of a
non-retryable exception (line 85 with should_retry false). -/
inductive RetryResult where
  | success (r : CallRes)
  | exhausted (r : CallRes)
  | fatal (e : PyExc)
deriving DecidableEq, Repr

/-- The retry loop from the attempt with `remaining` further attempts
allowed after the current one.  Returns the outcome together with the
number of calls made to the wrapped function. -/
def retryGo (config : RetryConfig) (func : Nat → CallRes) :
    Nat → Nat → RetryResult × Nat
  | attempt, remaining =>
    match func attempt with
    | .value v => (.success (.value v), 1)
    | .response s =>
      if config.retry_on_status.contains s then
        match remaining with
        | 0 => (.exhausted (.response s), 1)
        | r + 1 =>
          let rec' := retryGo config func (attempt + 1) r
          (rec'.1, rec'.2 + 1)
      else (.success (.response s), 1)
    | .exc e =>
      if config.retry_on_exceptions.any (fun c => e.isInstance c) then
        match remaining with
        | 0 => (.exhausted (.exc e), 1)
        | r + 1 =>
          let rec' := retryGo config func (attempt + 1) r
          (rec'.1, rec'.2 + 1)
      else (.fatal e, 1)

/-- retry_on_failure: run the loop `for attempt in range(max_retries + 1)`
starting at attempt 0. -/
def retry_on_failure (config : RetryConfig) (func : Nat → CallRes) :
    RetryResult × Nat :=
  retryGo config func 0 config.max_retries

example : retry_on_failure {} (fun _ => .response 500) =
    (.exhausted (.response 500), 4) := by decide

example : retry_on_failure {} (fun _ => .exc .valueError) =
    (.fatal .valueError, 1) := by decide

example : retry_on_failure {} (fun n => if n < 2 then .exc .timeout else .value 7) =
    (.success (.value 7), 3) := by decide

/-! ## CircuitBreaker (src/utils/retry.py lines 172-230)

time.time() is an explicit rational argument `now`.  The expected_exception
filter is left at its default (Exception), under which every failure of the
wrapped function is counted. -/

inductive CBState where
  | closed
  | opened
  | halfOpen
deriving DecidableEq, Repr

structure CBConfig where
  failure_threshold : Nat := 5
  recovery_timeout : ℚ := 60
deriving Repr

structure CircuitBreaker where
  failure_count : Nat := 0
  last_failure_time : Option ℚ := none
  state : CBState := .closed
deriving DecidableEq, Repr

/-- CircuitBreaker._should_attempt_reset (lines 209-214). -/
def CircuitBreaker.should_attempt_reset (config : CBConfig)
    (b : CircuitBreaker) (now : ℚ) : Bool :=
  match b.last_failure_time with
  | none => true
  | some t => config.recovery_timeout ≤ now - t

/-- CircuitBreaker._on_success (lines 216-221): resets only from HALF_OPEN. -/
def CircuitBreaker.on_success (b : CircuitBreaker) : CircuitBreaker :=
  if b.state = .halfOpen then
    { b with state := .closed, failure_count := 0 }
  else b

/-- CircuitBreaker._on_failure (lines 223-230). -/
def CircuitBreaker.on_failure (config : CBConfig) (b : CircuitBreaker)
    (now : ℚ) : CircuitBreaker :=
  let b := { b with failure_count := b.failure_count + 1,
                    last_failure_time := some now }
  if config.failure_threshold ≤ b.failure_count then
    { b with state := .opened }
  else b

/-- Outcome of one call through the breaker wrapper: rejected with the
"Circuit breaker is OPEN" exception of line 197, or the wrapped function ran
and returned / raised. -/
inductive CBCallResult where
  | rejected
  | succeeded
  | failed
deriving DecidableEq, Repr

structure CBCall where
  breaker : CircuitBreaker
  outcome : CBCallResult
  invoked : Bool
deriving DecidableEq, Repr

/-- The body of the wrapped function call under the breaker, shared by the
CLOSED and HALF_OPEN paths of the wrapper (lines 199-205). -/
def CircuitBreaker.run (config : CBConfig) (b : CircuitBreaker) (now : ℚ)
    (funcOk : Bool) : CBCall :=
  if funcOk then ⟨b.on_success, .succeeded, true⟩
  else ⟨b.on_failure config now, .failed, true⟩

/-- CircuitBreaker.__call__ wrapper body (lines 189-207).  `funcOk` tells
whether the wrapped function would succeed if invoked now. -/
def CircuitBreaker.call (config : CBConfig) (b : CircuitBreaker) (now : ℚ)
    (funcOk : Bool) : CBCall :=
  if b.state = .opened then
    if b.should_attempt_reset config now then
      CircuitBreaker.run config { b with state := .halfOpen } now funcOk
    else ⟨b, .rejected, false⟩
  else CircuitBreaker.run config b now funcOk

/-- A breaker that has been OPEN since time 0 with 5 recorded failures
(used in examples and witnesses below). -/
def openBreaker : CircuitBreaker :=
  { state := .opened, failure_count := 5, last_failure_time := some 0 }

example : (CircuitBreaker.call {} openBreaker 30 true).outcome = .rejected := by
  simp [CircuitBreaker.call, openBreaker, CircuitBreaker.should_attempt_reset]
  norm_num

example : (CircuitBreaker.call {} openBreaker 61 true).breaker.state = .closed := by
  simp [CircuitBreaker.call, openBreaker, CircuitBreaker.should_attempt_reset,
    CircuitBreaker.run, CircuitBreaker.on_success]
  norm_num

/-! ## ListingData (src/models/listing_data.py)

Only the fields read by ListingData.validate and by the service are kept;
price is a rational (Python float), quantity an integer. -/

structure ListingData where
  item_id : String
  title : String
  description : String
  price : ℚ
  quantity : Int
  condition : String
deriving DecidableEq, Repr

/-- The allowed condition strings of ListingData.validate (line 66). -/
def allowedConditions : List String :=
  ["New", "Like New", "Excellent", "Good", "Fair", "Poor"]

/-- ListingData.validate (lines 60-68).  `not self.item_id` on a Python
string is the emptiness test. -/
def ListingData.validate (ld : ListingData) : Bool :=
  if ld.item_id = "" || ld.title = "" then false
  else if ld.price ≤ 0 || ld.quantity ≤ 0 then false
  else if !(allowedConditions.contains ld.condition) then false
  else true

/-! ## CrossListingService (src/services/cross_listing_service.py)

The per-platform network behaviour is an explicit parameter: for each
platform name, platform.list_item either returns a listing id or raises.
The service's platform map is the list of configured platform names; the
ThreadPoolExecutor fan-out/fan-in is modelled by collecting every
submitted job's result (the claims checked here are about the membership
of the result sets, which does not depend on completion order). -/

inductive PlatformCallResult where
  | ok (listing_id : String)
  | raises (msg : String)
deriving DecidableEq, Repr

def PlatformCallResult.isOk : PlatformCallResult → Bool
  | .ok _ => true
  | .raises _ => false

/-- The per-platform dict built by CrossListingService._create_single_listing
(lines 150-173): success flag, listing id on success, error text on the
caught exception. -/
structure SingleListingResult where
  success : Bool
  listing_id : Option String := none
  error : Option String := none
deriving DecidableEq, Repr

/-- CrossListingService._create_single_listing (lines 150-173). -/
def create_single_listing (behavior : String → PlatformCallResult)
    (platform_name : String) : SingleListingResult :=
  match behavior platform_name with
  | .ok lid => { success := true, listing_id := some lid }
  | .raises msg => { success := false, error := some msg }

/-- The result dict of CrossListingService.create_cross_listing.  Keys that
are absent from the early-return dicts are modelled as `none` / `[]`. -/
structure CreateOutcome where
  success : Bool
  partial_success : Option Bool := none
  error : Option String := none
  listing_ids : List (String × String) := []
  successful_platforms : List String := []
  failed_platforms : List String := []
  item_id : Option String := none
deriving DecidableEq, Repr

/-- CrossListingService.create_cross_listing (lines 60-148).  `platforms` is
the list of platform names held in self.platforms; the second component of
the result is the list of platforms on which a platform operation was
actually invoked. -/
def create_cross_listing (platforms : List String)
    (behavior : String → PlatformCallResult) (listing_data : ListingData)
    (target_platforms : List String) : CreateOutcome × List String :=
  if !listing_data.validate then
    ({ success := false, error := some "Invalid listing data",
       failed_platforms := target_platforms }, [])
  else
    let available_platforms := target_platforms.filter
      (fun p => platforms.contains p)
    if available_platforms.isEmpty then
      ({ success := false, error := some "No available platforms",
         failed_platforms := target_platforms }, [])
    else
      let results := available_platforms.map
        (fun p => (p, create_single_listing behavior p))
      let successful_platforms :=
        (results.filter (fun r => r.2.success)).map (fun r => r.1)
      let failed_platforms :=
        (results.filter (fun r => !r.2.success)).map (fun r => r.1)
      let listing_ids := (results.filter (fun r => r.2.success)).map
        (fun r => (r.1, r.2.listing_id.getD ""))
      ({ success := successful_platforms.length > 0,
         partial_success := some (successful_platforms.length > 0 &&
           failed_platforms.length > 0),
         listing_ids := listing_ids,
         successful_platforms := successful_platforms,
         failed_platforms := failed_platforms,
         item_id := some listing_data.item_id }, available_platforms)

/-- A valid sample listing used by examples and witnesses. -/
def sampleListing : ListingData :=
  { item_id := "item-1", title := "Shirt", description := "d",
    price := 10, quantity := 1, condition := "Good" }

example : sampleListing.validate = true := by decide

example :
    ((create_cross_listing ["mercari"] (fun _ => .ok "L1") sampleListing
      ["mercari", "bogus"]).1).successful_platforms = ["mercari"] := by decide

example :
    ((create_cross_listing ["mercari"] (fun _ => .ok "L1") sampleListing
      ["bogus"]).1).error = some "No available platforms" := by decide

/-- CrossListingService._get_platform_listings (lines 503-507): the database
lookup is stubbed and always returns the empty mapping. -/
def get_platform_listings (_item_id : String) : List (String × String) :=
  []

/-- The result dict of update_cross_listing / delete_cross_listing.  The
early-return dict carries only success, error and item_id; the list keys of
the full dict are modelled with default []. -/
structure OpOutcome where
  success : Bool
  error : Option String := none
  item_id : String
  successful_platforms : List String := []
  failed_platforms : List String := []
deriving DecidableEq, Repr

/-- CrossListingService.update_cross_listing (lines 175-250).  `updBehavior`
gives, per (platform, listing id), whether platform.update_listing succeeds;
the second component lists the platform operations invoked. -/
def update_cross_listing (updBehavior : String → String → Bool)
    (item_id : String) : OpOutcome × List String :=
  let platform_listings := get_platform_listings item_id
  if platform_listings.isEmpty then
    ({ success := false, error := some "No platform listings found for item",
       item_id := item_id }, [])
  else
    let successful_platforms := (platform_listings.filter
      (fun pl => updBehavior pl.1 pl.2)).map (fun pl => pl.1)
    let failed_platforms := (platform_listings.filter
      (fun pl => !updBehavior pl.1 pl.2)).map (fun pl => pl.1)
    ({ success := successful_platforms.length > 0,
       item_id := item_id,
       successful_platforms := successful_platforms,
       failed_platforms := failed_platforms },
     platform_listings.map (fun pl => pl.1))

/-- CrossListingService.delete_cross_listing (lines 278-336), analogous. -/
def delete_cross_listing (delBehavior : String → String → Bool)
    (item_id : String) : OpOutcome × List String :=
  let platform_listings := get_platform_listings item_id
  if platform_listings.isEmpty then
    ({ success := false, error := some "No platform listings found for item",
       item_id := item_id }, [])
  else
    let successful_platforms := (platform_listings.filter
      (fun pl => delBehavior pl.1 pl.2)).map (fun pl => pl.1)
    let failed_platforms := (platform_listings.filter
      (fun pl => !delBehavior pl.1 pl.2)).map (fun pl => pl.1)
    ({ success := successful_platforms.length > 0,
       item_id := item_id,
       successful_platforms := successful_platforms,
       failed_platforms := failed_platforms },
     platform_listings.map (fun pl => pl.1))

/-! ## OAuthTokenManager (src/utils/oauth_manager.py)

datetime values are rationals (seconds); the token-endpoint HTTP exchange of
_refresh_access_token is an explicit parameter: `none` models the transport
raising, `some r` a received response.  Python truthiness on optional
strings (None and "" are falsy) is made explicit. -/

def truthyStr : Option String → Bool
  | none => false
  | some s => s ≠ ""

structure TokenState where
  access_token : Option String := none
  refresh_token : Option String := none
  expires_at : Option ℚ := none
  token_type : String := "Bearer"
deriving DecidableEq, Repr

/-- The fields read out of response.json() by _refresh_access_token, plus
the HTTP status code. -/
structure TokenResponse where
  status : Nat
  access_token : Option String := none
  refresh_token : Option String := none
  token_type : Option String := none
  expires_in : Option ℚ := none
deriving DecidableEq, Repr

/-- OAuthTokenManager._should_refresh_token (lines 60-67). -/
def should_refresh_token (st : TokenState) (now threshold : ℚ) : Bool :=
  match st.expires_at, truthyStr st.refresh_token with
  | some exp, true => exp - now ≤ threshold
  | _, _ => false

/-- OAuthTokenManager._refresh_access_token (lines 69-125): returns the new
token state and whether the refresh succeeded (raising paths return the
unchanged state with `false`).  On a 200 response the access token, refresh
token, token type and (when expires_in is truthy) the expiry are replaced;
on any other outcome nothing is written before the raise. -/
def refresh_access_token (st : TokenState) (now : ℚ)
    (resp : Option TokenResponse) : TokenState × Bool :=
  if !truthyStr st.refresh_token then (st, false)
  else
    match resp with
    | none => (st, false)
    | some r =>
      if r.status = 200 then
        ({ access_token := r.access_token,
           refresh_token := match r.refresh_token with
             | some rt => some rt
             | none => st.refresh_token,
           token_type := r.token_type.getD "Bearer",
           expires_at := match r.expires_in with
             | some ei => if ei = 0 then st.expires_at else some (now + ei)
             | none => st.expires_at }, true)
      else (st, false)

/-- OAuthTokenManager.get_valid_access_token (lines 45-58): returns the new
token state and the token handed to the caller (`none` models returning
None). -/
def get_valid_access_token (st : TokenState) (now threshold : ℚ)
    (resp : Option TokenResponse) : TokenState × Option String :=
  if !truthyStr st.access_token then (st, none)
  else if should_refresh_token st now threshold then
    let r := refresh_access_token st now resp
    if r.2 then (r.1, r.1.access_token) else (r.1, none)
  else (st, st.access_token)

/-! ## Theorems -/

/-- If every attempt from `attempt` on fails retryably, the loop runs out of
its remaining budget and ends on the result of the last attempt. -/
theorem retryGo_all_retryable (config : RetryConfig) (func : Nat → CallRes)
    (h : ∀ n, retryableRes config (func n) = true) :
    ∀ remaining attempt,
      retryGo config func attempt remaining =
        (.exhausted (func (attempt + remaining)), remaining + 1) := by
  intro remaining
  induction remaining with
  | zero =>
    intro attempt
    have hr := h attempt
    unfold retryGo
    cases hf : func attempt with
    | value v => rw [hf] at hr; simp [retryableRes] at hr
    | response s =>
      rw [hf] at hr
      have hmem : s ∈ config.retry_on_status := by
        simpa [retryableRes] using hr
      simp [hf, hmem]
    | exc e =>
      rw [hf] at hr
      simp only [retryableRes] at hr
      simp [hr, hf]
  | succ r ih =>
    intro attempt
    have hr := h attempt
    have harith : attempt + 1 + r = attempt + (r + 1) := by omega
    unfold retryGo
    cases hf : func attempt with
    | value v => rw [hf] at hr; simp [retryableRes] at hr
    | response s =>
      rw [hf] at hr
      simp only [retryableRes] at hr
      simp only [hf, ih (attempt + 1), harith]
      exact if_pos hr
    | exc e =>
      rw [hf] at hr
      simp only [retryableRes] at hr
      simp only [hf, hr, if_true, ih (attempt + 1), harith]

/-- C2: with maxRetries = r, a call that fails with a retryable condition on
every attempt makes exactly r + 1 attempts, and the executor terminates in
the exhausted branch carrying the error observed on the last attempt. -/
theorem retry_exhausts_after_max_retries (config : RetryConfig)
    (func : Nat → CallRes)
    (h : ∀ n, retryableRes config (func n) = true) :
    retry_on_failure config func =
      (.exhausted (func config.max_retries), config.max_retries + 1) := by
  unfold retry_on_failure
  rw [retryGo_all_retryable config func h config.max_retries 0]
  simp

/-- Witness for C2: the default policy (maxRetries = 3) against a call that
returns HTTP 500 on every attempt makes 4 attempts and surfaces the last
500 response. -/
theorem retry_exhausts_after_max_retries_witness :
    (∀ n : Nat, retryableRes {} ((fun _ => CallRes.response 500) n) = true) ∧
    retry_on_failure {} (fun _ => CallRes.response 500) =
      (.exhausted (.response 500), 4) :=
  ⟨fun _ => rfl,
   retry_exhausts_after_max_retries {} (fun _ => CallRes.response 500)
     (fun _ => rfl)⟩

/-- If the first n attempts fail retryably, n is within the budget and the
n-th attempt raises a non-retryable exception, the loop raises it there,
after exactly n + 1 calls. -/
theorem retryGo_fatal (config : RetryConfig) (func : Nat → CallRes)
    (e : PyExc) :
    ∀ n attempt remaining, n ≤ remaining →
      (∀ k, k < n → retryableRes config (func (attempt + k)) = true) →
      func (attempt + n) = .exc e →
      retryableRes config (.exc e) = false →
      retryGo config func attempt remaining = (.fatal e, n + 1) := by
  intro n
  induction n with
  | zero =>
    intro attempt remaining _ _ hf hnr
    simp only [Nat.add_zero] at hf
    simp only [retryableRes] at hnr
    unfold retryGo
    rw [hf]
    simp [hnr]
  | succ m ih =>
    intro attempt remaining hle hret hf hnr
    have hr0 := hret 0 (Nat.succ_pos m)
    rw [Nat.add_zero] at hr0
    obtain ⟨rem, rfl⟩ : ∃ rem, remaining = rem + 1 :=
      ⟨remaining - 1, by omega⟩
    have hrec := ih (attempt + 1) rem (by omega)
      (fun k hk => by
        have := hret (k + 1) (by omega)
        rwa [show attempt + (k + 1) = attempt + 1 + k from by omega] at this)
      (by rwa [show attempt + 1 + m = attempt + (m + 1) from by omega])
      hnr
    unfold retryGo
    cases hfa : func attempt with
    | value v => rw [hfa] at hr0; simp [retryableRes] at hr0
    | response s =>
      rw [hfa] at hr0
      simp only [retryableRes] at hr0
      simp only [hrec]
      exact if_pos hr0
    | exc e2 =>
      rw [hfa] at hr0
      simp only [retryableRes] at hr0
      simp only [hrec]
      exact if_pos hr0

/-- C3 (amended): the executor retries exactly on the declared transient
statuses or on an exception that is an instance of one of the declared
exception classes; with the default configuration the declared classes are
ConnectionError, Timeout and their base class RequestException, so every
requests-level exception is retryable, not only connect failures and
timeouts; any non-retryable error surfaces immediately on the attempt where
it occurs, with no further attempts made. -/
theorem retry_retryable_characterization :
    (∀ e, retryableRes {} (.exc e) = e.isRequests) ∧
    (∀ s, retryableRes {} (.response s) =
      [429, 500, 502, 503, 504].contains s) ∧
    (∀ (config : RetryConfig) (func : Nat → CallRes) (n : Nat) (e : PyExc),
      n ≤ config.max_retries →
      (∀ k, k < n → retryableRes config (func k) = true) →
      func n = .exc e →
      retryableRes config (.exc e) = false →
      retry_on_failure config func = (.fatal e, n + 1)) := by
  refine ⟨fun e => by cases e <;> rfl, fun s => rfl, ?_⟩
  intro config func n e hle hret hf hnr
  unfold retry_on_failure
  exact retryGo_fatal config func e n 0 config.max_retries hle
    (fun k hk => by simpa using hret k hk) (by simpa using hf) hnr

/-- Witness for C3: a ValueError on the first attempt is non-retryable under
the default configuration and surfaces after exactly one call. -/
theorem retry_retryable_characterization_witness :
    retry_on_failure {} (fun _ => CallRes.exc .valueError) =
      (.fatal .valueError, 0 + 1) :=
  retry_retryable_characterization.2.2 {} (fun _ => CallRes.exc .valueError)
    0 .valueError (Nat.zero_le _) (fun k hk => absurd hk (Nat.not_lt_zero k))
    rfl rfl

/-- Counterexample for C3 as stated: requests.exceptions.HTTPError is
neither a network-connect failure nor a timeout (and carries no status in
the declared transient list), yet the default configuration retries it to
exhaustion, making 4 attempts instead of surfacing it immediately on the
first attempt. -/
theorem retry_retries_http_error_counterexample :
    retry_on_failure {} (fun _ => CallRes.exc .httpError) =
      (.exhausted (.exc .httpError), 4) ∧
    PyExc.httpError ≠ .connectionError ∧ PyExc.httpError ≠ .timeout := by
  decide

/-- Mapping each element to a pair with its job result, filtering on the
result and projecting back is filtering on the composed predicate. -/
theorem map_pair_filter {α β : Type} (l : List α) (f : α → β) (q : β → Bool) :
    ((l.map (fun p => (p, f p))).filter (fun r => q r.2)).map (fun r => r.1) =
      l.filter (fun p => q (f p)) := by
  induction l with
  | nil => rfl
  | cons a l ih =>
    by_cases hq : q (f a) <;> simp [List.filter_cons, hq, ih]

/-- On valid data with at least one configured target, the two result sets
of create_cross_listing are the configured targets filtered by per-platform
success and failure respectively. -/
theorem create_cross_listing_main (platforms : List String)
    (behavior : String → PlatformCallResult) (ld : ListingData)
    (targets : List String) (hv : ld.validate = true)
    (hne : (targets.filter (fun p => platforms.contains p)).isEmpty = false) :
    ((create_cross_listing platforms behavior ld targets).1).successful_platforms =
      (targets.filter (fun p => platforms.contains p)).filter
        (fun p => (create_single_listing behavior p).success) ∧
    ((create_cross_listing platforms behavior ld targets).1).failed_platforms =
      (targets.filter (fun p => platforms.contains p)).filter
        (fun p => !(create_single_listing behavior p).success) := by
  unfold create_cross_listing
  rw [hv]
  simp only [Bool.not_true, Bool.false_eq_true, if_false, hne]
  exact ⟨map_pair_filter _ _ (fun s : SingleListingResult => s.success),
         map_pair_filter _ _ (fun s : SingleListingResult => !s.success)⟩

/-- On valid data with no configured target, create_cross_listing fails as a
whole with the "No available platforms" record. -/
theorem create_cross_listing_no_available (platforms : List String)
    (behavior : String → PlatformCallResult) (ld : ListingData)
    (targets : List String) (hv : ld.validate = true)
    (he : targets.filter (fun p => platforms.contains p) = []) :
    (create_cross_listing platforms behavior ld targets).1 =
      { success := false, error := some "No available platforms",
        failed_platforms := targets } := by
  unfold create_cross_listing
  rw [hv]
  simp only [Bool.not_true, Bool.false_eq_true, if_false, he]
  rfl

/-- C1 (amended): for valid listing data, when at least one target platform
is configured the successful and failed sets are disjoint and their union is
exactly the configured subset of the targets — an unknown target platform
appears in neither set (it is silently dropped); when no target platform is
configured the whole call instead fails with "No available platforms" and
the entire target list is reported failed. -/
theorem create_cross_listing_partition (platforms : List String)
    (behavior : String → PlatformCallResult) (ld : ListingData)
    (targets : List String) (hv : ld.validate = true) :
    (targets.filter (fun p => platforms.contains p) ≠ [] →
      (∀ p, (p ∈ ((create_cross_listing platforms behavior ld targets).1).successful_platforms ∨
             p ∈ ((create_cross_listing platforms behavior ld targets).1).failed_platforms) ↔
            (p ∈ targets ∧ platforms.contains p = true)) ∧
      (∀ p, p ∈ ((create_cross_listing platforms behavior ld targets).1).successful_platforms →
            p ∉ ((create_cross_listing platforms behavior ld targets).1).failed_platforms) ∧
      (∀ p, p ∈ targets → platforms.contains p = false →
            p ∉ ((create_cross_listing platforms behavior ld targets).1).successful_platforms ∧
            p ∉ ((create_cross_listing platforms behavior ld targets).1).failed_platforms)) ∧
    (targets.filter (fun p => platforms.contains p) = [] →
      (create_cross_listing platforms behavior ld targets).1 =
        { success := false, error := some "No available platforms",
          failed_platforms := targets }) := by
  constructor
  · intro hne
    have hemp : (targets.filter (fun p => platforms.contains p)).isEmpty = false := by
      cases hl : targets.filter (fun p => platforms.contains p) with
      | nil => exact absurd hl hne
      | cons a l => rfl
    obtain ⟨hsucc, hfail⟩ :=
      create_cross_listing_main platforms behavior ld targets hv hemp
    rw [hsucc, hfail]
    refine ⟨?_, ?_, ?_⟩
    · intro p
      constructor
      · intro hp
        have hp' : p ∈ targets.filter (fun p => platforms.contains p) := by
          rcases hp with hp | hp
          · exact (List.mem_filter.mp hp).1
          · exact (List.mem_filter.mp hp).1
        exact ⟨(List.mem_filter.mp hp').1, (List.mem_filter.mp hp').2⟩
      · intro hp
        have hav : p ∈ targets.filter (fun p => platforms.contains p) :=
          List.mem_filter.mpr ⟨hp.1, hp.2⟩
        by_cases hs : (create_single_listing behavior p).success = true
        · exact Or.inl (List.mem_filter.mpr ⟨hav, hs⟩)
        · exact Or.inr (List.mem_filter.mpr
            ⟨hav, by simp [Bool.eq_false_iff.mpr hs]⟩)
    · intro p hps hpf
      have h1 := (List.mem_filter.mp hps).2
      have h2 := (List.mem_filter.mp hpf).2
      rw [h1] at h2
      simp at h2
    · intro p hpt hpc
      constructor <;> intro hp
      · have := (List.mem_filter.mp ((List.mem_filter.mp hp).1)).2
        rw [hpc] at this
        exact absurd this (by simp)
      · have := (List.mem_filter.mp ((List.mem_filter.mp hp).1)).2
        rw [hpc] at this
        exact absurd this (by simp)
  · intro he
    exact create_cross_listing_no_available platforms behavior ld targets hv he

/-- Witness for C1 (amended): one configured platform that succeeds and one
unknown target; the union of the two sets is exactly the configured subset
of the targets. -/
theorem create_cross_listing_partition_witness :
    sampleListing.validate = true ∧
    (["mercari", "bogus"].filter
      (fun p => (["mercari"] : List String).contains p) ≠ [] ∧
     ∀ p, (p ∈ ((create_cross_listing ["mercari"] (fun _ => .ok "L1")
                  sampleListing ["mercari", "bogus"]).1).successful_platforms ∨
           p ∈ ((create_cross_listing ["mercari"] (fun _ => .ok "L1")
                  sampleListing ["mercari", "bogus"]).1).failed_platforms) ↔
          (p ∈ ["mercari", "bogus"] ∧
           (["mercari"] : List String).contains p = true)) := by
  refine ⟨by decide, by decide, ?_⟩
  exact ((create_cross_listing_partition ["mercari"] (fun _ => .ok "L1")
    sampleListing ["mercari", "bogus"] (by decide)).1 (by decide)).1

/-- Counterexample for C1 as stated: with configured platform set {mercari},
dispatching to targets [mercari, bogus] (mercari succeeding) yields
successfulProviders = [mercari] and failedProviders = [], so the requested
target bogus is in neither set: it is dropped rather than reported as a
per-provider UnknownProvider failure, and the union of the two sets is not
the requested target set. -/
theorem create_cross_listing_unknown_dropped_counterexample :
    ((create_cross_listing ["mercari"] (fun _ => .ok "L1") sampleListing
        ["mercari", "bogus"]).1).successful_platforms = ["mercari"] ∧
    ((create_cross_listing ["mercari"] (fun _ => .ok "L1") sampleListing
        ["mercari", "bogus"]).1).failed_platforms = [] ∧
    "bogus" ∈ ["mercari", "bogus"] ∧
    ("bogus" : String) ∉ (["mercari"] : List String) := by
  decide

/-- C10: if the listing data fails validation, create_cross_listing returns
success = false with error "Invalid listing data", the entire requested
target list as failed_platforms, empty successful set and listing-id map,
and invokes no platform operation; and validation fails exactly on empty
item_id or title, non-positive price or quantity, or a condition outside
the allowed list. -/
theorem create_cross_listing_invalid_data (platforms : List String)
    (behavior : String → PlatformCallResult) (ld : ListingData)
    (targets : List String) (hv : ld.validate = false) :
    create_cross_listing platforms behavior ld targets =
      ({ success := false, error := some "Invalid listing data",
         failed_platforms := targets }, []) ∧
    (ld.validate = false ↔
      (ld.item_id = "" ∨ ld.title = "" ∨ ld.price ≤ 0 ∨ ld.quantity ≤ 0 ∨
       ld.condition ∉ allowedConditions)) := by
  constructor
  · unfold create_cross_listing
    rw [hv]
    rfl
  · unfold ListingData.validate
    by_cases h1 : ld.item_id = "" <;>
      by_cases h2 : ld.title = "" <;>
        by_cases h3 : ld.price ≤ 0 <;>
          by_cases h4 : ld.quantity ≤ 0 <;>
            by_cases h5 : ld.condition ∈ allowedConditions <;>
              simp [h1, h2, h3, h4, h5]

/-- An invalid sample listing (empty item_id) for the C10 witness. -/
def invalidListing : ListingData :=
  { item_id := "", title := "Shirt", description := "d",
    price := 10, quantity := 1, condition := "Good" }

/-- Witness for C10: the invalid sample fails validation and the whole
requested target list is reported failed without any platform call. -/
theorem create_cross_listing_invalid_data_witness :
    invalidListing.validate = false ∧
    create_cross_listing ["mercari"] (fun _ => PlatformCallResult.ok "L1")
        invalidListing ["mercari", "vinted"] =
      ({ success := false, error := some "Invalid listing data",
         failed_platforms := ["mercari", "vinted"] }, []) :=
  ⟨by decide,
   (create_cross_listing_invalid_data ["mercari"]
     (fun _ => PlatformCallResult.ok "L1") invalidListing
     ["mercari", "vinted"] (by decide)).1⟩

/-- C4 (amended): in the Closed state a failure increments the cumulative
failure count, records the failure time, and opens the breaker exactly when
the incremented count reaches failureThreshold; a successful call in Closed
leaves the breaker — including its failure count — entirely unchanged, so
the counted failures need not be consecutive. -/
theorem circuit_breaker_closed_transitions (config : CBConfig)
    (b : CircuitBreaker) (now : ℚ) (hc : b.state = .closed) :
    CircuitBreaker.call config b now true = ⟨b, .succeeded, true⟩ ∧
    ((CircuitBreaker.call config b now false).breaker.failure_count =
        b.failure_count + 1 ∧
     (CircuitBreaker.call config b now false).breaker.last_failure_time =
        some now ∧
     ((CircuitBreaker.call config b now false).breaker.state = .opened ↔
        config.failure_threshold ≤ b.failure_count + 1)) := by
  have hno : ¬ b.state = .opened := by rw [hc]; intro h; cases h
  constructor
  · simp only [CircuitBreaker.call, if_neg hno, CircuitBreaker.run, if_true,
      CircuitBreaker.on_success]
    rw [if_neg (by rw [hc]; intro h; cases h)]
  · simp only [CircuitBreaker.call, if_neg hno, CircuitBreaker.run,
      Bool.false_eq_true, if_false, CircuitBreaker.on_failure]
    by_cases ht : config.failure_threshold ≤ b.failure_count + 1
    · simp [if_pos ht, ht]
    · simp only [if_neg ht]
      simp [hc, ht]

/-- Witness for C4 (amended): the default breaker is Closed; a success
leaves it unchanged. -/
theorem circuit_breaker_closed_transitions_witness :
    ({} : CircuitBreaker).state = .closed ∧
    CircuitBreaker.call {} {} 0 true = ⟨{}, .succeeded, true⟩ :=
  ⟨rfl, (circuit_breaker_closed_transitions {} {} 0 rfl).1⟩

/-- Counterexample for C4 as stated: with the default threshold 5, the run
fail, fail, fail, fail, success, fail — whose longest run of consecutive
failures is 4 — opens the breaker, because the success at time 4 happens in
the Closed state and does not reset the failure count (it stays at 4). -/
theorem circuit_breaker_consecutive_counterexample :
    ([((0 : ℚ), false), (1, false), (2, false), (3, false),
        (4, true)].foldl
      (fun (b : CircuitBreaker) ev =>
        (CircuitBreaker.call {} b ev.1 ev.2).breaker) {}).failure_count = 4 ∧
    ([((0 : ℚ), false), (1, false), (2, false), (3, false),
        (4, true)].foldl
      (fun (b : CircuitBreaker) ev =>
        (CircuitBreaker.call {} b ev.1 ev.2).breaker) {}).state = .closed ∧
    (CircuitBreaker.call {}
      ([((0 : ℚ), false), (1, false), (2, false), (3, false),
          (4, true)].foldl
        (fun (b : CircuitBreaker) ev =>
          (CircuitBreaker.call {} b ev.1 ev.2).breaker) {}) 5 false
      ).breaker.state = .opened := by
  refine ⟨rfl, rfl, rfl⟩

/-- C5: while the breaker is Open and less than recoveryTimeout has elapsed
since the recorded failure time, every call is rejected immediately — the
wrapped function is not invoked and the breaker is unchanged; and a dispatch
whose only target platform raises (as the breaker rejection does) reports
that platform as failed with the raised message recorded in the
per-platform result, an empty successful set, and overall success false. -/
theorem circuit_open_rejects (config : CBConfig) (b : CircuitBreaker)
    (t now : ℚ) (funcOk : Bool) (hs : b.state = .opened)
    (ht : b.last_failure_time = some t)
    (helapsed : now - t < config.recovery_timeout) :
    CircuitBreaker.call config b now funcOk = ⟨b, .rejected, false⟩ ∧
    (∀ (platforms : List String) (behavior : String → PlatformCallResult)
       (ld : ListingData) (X msg : String),
       ld.validate = true → platforms.contains X = true →
       behavior X = .raises msg →
       create_single_listing behavior X =
         { success := false, error := some msg } ∧
       ((create_cross_listing platforms behavior ld [X]).1).failed_platforms
         = [X] ∧
       ((create_cross_listing platforms behavior ld [X]).1).successful_platforms
         = [] ∧
       ((create_cross_listing platforms behavior ld [X]).1).success = false) := by
  constructor
  · have hreset : b.should_attempt_reset config now = false := by
      simp only [CircuitBreaker.should_attempt_reset, ht]
      simpa using not_le.mpr helapsed
    simp [CircuitBreaker.call, hs, hreset]
  · intro platforms behavior ld X msg hv hX hbeh
    have hsingle : create_single_listing behavior X =
        { success := false, error := some msg } := by
      simp [create_single_listing, hbeh]
    have hXm : X ∈ platforms := by simpa using hX
    have hfil : ([X].filter (fun p => platforms.contains p)) = [X] := by
      simp [List.filter_cons, hXm]
    have hemp : (([X] : List String).filter
        (fun p => platforms.contains p)).isEmpty = false := by
      rw [hfil]; rfl
    obtain ⟨hsucc, hfail⟩ :=
      create_cross_listing_main platforms behavior ld [X] hv hemp
    have hsucc' : ((create_cross_listing platforms behavior ld [X]).1).successful_platforms = [] := by
      rw [hsucc, hfil]
      simp [List.filter_cons, hsingle]
    have hfail' : ((create_cross_listing platforms behavior ld [X]).1).failed_platforms = [X] := by
      rw [hfail, hfil]
      simp [List.filter_cons, hsingle]
    refine ⟨hsingle, hfail', hsucc', ?_⟩
    unfold create_cross_listing
    rw [hv]
    simp only [Bool.not_true, Bool.false_eq_true, if_false, hemp]
    have : (([X].filter (fun p => platforms.contains p)).map
        (fun p => (p, create_single_listing behavior p))).filter
          (fun r => r.2.success) = [] := by
      rw [hfil]
      simp [hsingle]
    simp [this]
    intro hmem
    simp [hsingle]

/-- Witness for C5: the sample open breaker at time 30 (recovery timeout 60)
rejects without invoking the wrapped call, and a dispatch to the single
platform mercari whose call raises "Circuit breaker is OPEN" reports
mercari failed. -/
theorem circuit_open_rejects_witness :
    openBreaker.state = .opened ∧ ((30 : ℚ) - 0 < 60) ∧
    CircuitBreaker.call {} openBreaker 30 true =
      ⟨openBreaker, .rejected, false⟩ ∧
    ((create_cross_listing ["mercari"]
        (fun _ => .raises "Circuit breaker is OPEN") sampleListing
        ["mercari"]).1).failed_platforms = ["mercari"] ∧
    ((create_cross_listing ["mercari"]
        (fun _ => .raises "Circuit breaker is OPEN") sampleListing
        ["mercari"]).1).successful_platforms = [] := by
  have h := circuit_open_rejects {} openBreaker 0 30 true rfl rfl
    (by norm_num)
  have h2 := h.2 ["mercari"] (fun _ => .raises "Circuit breaker is OPEN")
    sampleListing "mercari" "Circuit breaker is OPEN" (by decide) (by decide)
    rfl
  exact ⟨rfl, by norm_num, h.1, h2.2.1, h2.2.2.1⟩

/-- C6: once recoveryTimeout has elapsed since entering Open, the next call
moves the breaker through HalfOpen and invokes the wrapped function as the
single probe; the breaker never stays in HalfOpen after the call, a
successful probe closes it with failure count 0, and a failed probe
returns it to Open. -/
theorem circuit_halfopen_probe (config : CBConfig) (b : CircuitBreaker)
    (t now : ℚ) (funcOk : Bool) (hs : b.state = .opened)
    (ht : b.last_failure_time = some t)
    (helapsed : config.recovery_timeout ≤ now - t)
    (hinv : config.failure_threshold ≤ b.failure_count) :
    (CircuitBreaker.call config b now funcOk).invoked = true ∧
    (CircuitBreaker.call config b now funcOk).breaker.state ≠ .halfOpen ∧
    (funcOk = true →
      (CircuitBreaker.call config b now true).breaker.state = .closed ∧
      (CircuitBreaker.call config b now true).breaker.failure_count = 0) ∧
    (funcOk = false →
      (CircuitBreaker.call config b now false).breaker.state = .opened) := by
  have hreset : b.should_attempt_reset config now = true := by
    simp only [CircuitBreaker.should_attempt_reset, ht]
    simpa using helapsed
  have hopen : config.failure_threshold ≤ b.failure_count + 1 :=
    le_trans hinv (Nat.le_succ _)
  cases funcOk with
  | true =>
    simp [CircuitBreaker.call, hs, hreset, CircuitBreaker.run,
      CircuitBreaker.on_success]
  | false =>
    simp [CircuitBreaker.call, hs, hreset, CircuitBreaker.run,
      CircuitBreaker.on_failure, hopen]

/-- Witness for C6: the sample open breaker probed at time 61 closes on a
successful probe with its failure count reset to 0. -/
theorem circuit_halfopen_probe_witness :
    openBreaker.state = .opened ∧ ((60 : ℚ) ≤ 61 - 0) ∧
    (CircuitBreaker.call {} openBreaker 61 true).invoked = true ∧
    (CircuitBreaker.call {} openBreaker 61 true).breaker.state = .closed ∧
    (CircuitBreaker.call {} openBreaker 61 true).breaker.failure_count = 0 := by
  have h := circuit_halfopen_probe {} openBreaker 0 61 true rfl rfl
    (by norm_num) (by decide)
  exact ⟨rfl, by norm_num, h.1, (h.2.2.1 rfl).1, (h.2.2.1 rfl).2⟩

/-- C7: for every attempt n and non-negative configuration, the backoff
delay with jitter disabled is exactly min(backoffFactor^n, maxBackoff);
with jitter enabled it is that base perturbed by the sampled jitter — which
the caller draws uniformly from within ±10% of the base — and in either
case it deviates from the base by at most 10% of the base and is
non-negative; the default configuration has backoffFactor = 2 and
maxBackoff = 60. -/
theorem calculate_backoff_formula (attempt : Nat) (config : RetryConfig)
    (j : ℚ) (hf : 0 ≤ config.backoff_factor) (hm : 0 ≤ config.max_backoff)
    (hj : |j| ≤ min (config.backoff_factor ^ attempt) config.max_backoff / 10) :
    (config.jitter = false →
      calculate_backoff attempt config j =
        min (config.backoff_factor ^ attempt) config.max_backoff) ∧
    (config.jitter = true →
      calculate_backoff attempt config j =
        min (config.backoff_factor ^ attempt) config.max_backoff + j) ∧
    |calculate_backoff attempt config j -
        min (config.backoff_factor ^ attempt) config.max_backoff| ≤
      min (config.backoff_factor ^ attempt) config.max_backoff / 10 ∧
    (0 : ℚ) ≤ calculate_backoff attempt config j ∧
    ({} : RetryConfig).backoff_factor = 2 ∧
    ({} : RetryConfig).max_backoff = 60 := by
  have hbase : 0 ≤ min (config.backoff_factor ^ attempt) config.max_backoff :=
    le_min (pow_nonneg hf attempt) hm
  obtain ⟨hj1, hj2⟩ := abs_le.mp hj
  cases hjit : config.jitter with
  | false =>
    have hval : calculate_backoff attempt config j =
        min (config.backoff_factor ^ attempt) config.max_backoff := by
      simp only [calculate_backoff, hjit, Bool.false_eq_true, if_false]
      exact max_eq_right hbase
    refine ⟨fun _ => hval, ?_, ?_, ?_, rfl, rfl⟩
    · intro h; simp [hjit] at h
    · rw [hval, sub_self, abs_zero]
      exact div_nonneg hbase (by norm_num)
    · rw [hval]; exact hbase
  | true =>
    have h10 : min (config.backoff_factor ^ attempt) config.max_backoff / 10 ≤
        min (config.backoff_factor ^ attempt) config.max_backoff := by
      rw [div_le_iff₀ (by norm_num : (0:ℚ) < 10)]
      nlinarith
    have hnn : 0 ≤ min (config.backoff_factor ^ attempt) config.max_backoff + j := by
      linarith
    have hval : calculate_backoff attempt config j =
        min (config.backoff_factor ^ attempt) config.max_backoff + j := by
      simp only [calculate_backoff, hjit, if_true]
      exact max_eq_right hnn
    refine ⟨?_, fun _ => hval, ?_, ?_, rfl, rfl⟩
    · intro h; simp [hjit] at h
    · rw [hval, add_sub_cancel_left]
      exact hj
    · rw [hval]; exact hnn

/-- Witness for C7: the default configuration at attempt 2 with jitter
sample 1/5 yields min(2^2, 60) + 1/5. -/
theorem calculate_backoff_formula_witness :
    (0 : ℚ) ≤ 2 ∧ |(1 / 5 : ℚ)| ≤ min ((2 : ℚ) ^ 2) 60 / 10 ∧
    calculate_backoff 2 {} (1 / 5) = min ((2 : ℚ) ^ 2) 60 + 1 / 5 := by
  refine ⟨by norm_num, by rw [abs_of_nonneg] <;> norm_num, ?_⟩
  exact (calculate_backoff_formula 2 {} (1 / 5) (by norm_num) (by norm_num)
    (by rw [abs_of_nonneg] <;> norm_num)).2.1 rfl

/-- A refresh that does not succeed leaves the token state untouched: every
raising path of _refresh_access_token happens before any assignment. -/
theorem refresh_access_token_failure_id (st : TokenState) (now : ℚ)
    (resp : Option TokenResponse)
    (h : (refresh_access_token st now resp).2 = false) :
    (refresh_access_token st now resp).1 = st := by
  unfold refresh_access_token at *
  by_cases hrt : truthyStr st.refresh_token
  · rw [hrt] at h ⊢
    cases resp with
    | none => rfl
    | some r =>
      by_cases hs : r.status = 200
      · simp [hs] at h
      · simp [hs]
  · simp [hrt]

/-- C8: when the stored access token is present and a refresh is needed, a
failing refresh makes get_valid_access_token return no token for this call
while leaving the whole stored token state (access token, refresh token,
expiry) unchanged; and in general a token state is only ever replaced by a
refresh that succeeded. -/
theorem get_valid_access_token_refresh_failure (st : TokenState)
    (now threshold : ℚ) (resp : Option TokenResponse) (tok : String)
    (ha : st.access_token = some tok) (hne : tok ≠ "")
    (hr : should_refresh_token st now threshold = true)
    (hfail : (refresh_access_token st now resp).2 = false) :
    get_valid_access_token st now threshold resp = (st, none) ∧
    (∀ (st2 : TokenState) (now2 : ℚ) (resp2 : Option TokenResponse),
      (refresh_access_token st2 now2 resp2).2 = false →
      (refresh_access_token st2 now2 resp2).1 = st2) := by
  refine ⟨?_, refresh_access_token_failure_id⟩
  have htr : truthyStr st.access_token = true := by
    rw [ha]
    simpa [truthyStr] using hne
  unfold get_valid_access_token
  rw [htr, hr]
  simp only [Bool.not_true, Bool.false_eq_true, if_false, if_true]
  rw [if_neg (by rw [hfail]; exact Bool.false_ne_true)]
  rw [refresh_access_token_failure_id st now resp hfail]

/-- The token state used by the C8 witness: an access token that expires at
time 100 with a refresh token present. -/
def sampleTokenState : TokenState :=
  { access_token := some "abc", refresh_token := some "r1",
    expires_at := some 100 }

/-- Witness for C8: at time 0 with threshold 300 the token needs refreshing;
a 500 response from the token endpoint leaves the state unchanged and the
call returns no token. -/
theorem get_valid_access_token_refresh_failure_witness :
    should_refresh_token sampleTokenState 0 300 = true ∧
    (refresh_access_token sampleTokenState 0 (some { status := 500 })).2 = false ∧
    get_valid_access_token sampleTokenState 0 300 (some { status := 500 }) =
      (sampleTokenState, none) := by
  have hr : should_refresh_token sampleTokenState 0 300 = true := by
    simp only [should_refresh_token, sampleTokenState, truthyStr]
    norm_num
    decide
  have hfail : (refresh_access_token sampleTokenState 0
      (some { status := 500 })).2 = false := by
    simp [refresh_access_token, sampleTokenState, truthyStr]
  exact ⟨hr, hfail,
    (get_valid_access_token_refresh_failure sampleTokenState 0 300
      (some { status := 500 }) "abc" rfl (by decide) hr hfail).1⟩

/-- C9: because the platform-listing lookup is stubbed to return the empty
mapping, update_cross_listing and delete_cross_listing return, for every
item id, the failure record with error "No platform listings found for
item" and make no platform calls. -/
theorem update_delete_stubbed_lookup :
    ∀ (updBehavior delBehavior : String → String → Bool) (item_id : String),
      update_cross_listing updBehavior item_id =
        ({ success := false,
           error := some "No platform listings found for item",
           item_id := item_id }, []) ∧
      delete_cross_listing delBehavior item_id =
        ({ success := false,
           error := some "No platform listings found for item",
           item_id := item_id }, []) :=
  fun _ _ _ => ⟨rfl, rfl⟩
